import Mathlib

/-!
Verification development for the screentime-guardian time-tracking and
enforcement engine.

The Go sources are shallowly embedded as pure Lean functions:

* `Storage` and its methods follow `internal/storage/storage.go`
  (`GetUserByID`, `AddUsageTime`, `GetTodayUsageSeconds`,
  `AddTimeExtension`, `GetTodayExtensions`, `GetRemainingMinutes`).
  The SQLite tables become lists of records; the ambient `time.Now()`
  day string becomes an explicit `today` argument; in this pure
  embedding database query errors do not occur, so the `Except` error
  constructor of `GetRemainingMinutes` is never produced (it mirrors
  the `(int, error)` return shape of the Go method).
* The `Scheduler` struct and its `check` cycle follow
  `internal/scheduler/scheduler.go`.  The external collaborators
  (accounting store, logind session directory, notifier chain) are
  modelled as an oracle environment `CheckEnv` supplying the results
  of each call the cycle makes, and the cycle's outward-visible calls
  are recorded as a list of `Effect`s.  Go integers are `Int`;
  `time.Duration` values are `Int` nanoseconds; Go's truncating
  integer division is `Int.tdiv`.
* `apiExtendTime` follows `internal/api/handlers.go`.
-/

/-! ## Go time values

Only the pieces of `time.Time` that `Scheduler.check` consumes are
modelled: the instant (nanoseconds since the Go zero time, January 1
of year 1 UTC, as an unbounded `Int`) and the local wall-clock hour
and minute components of that instant.  `time.Time.Sub` returns an
`int64` count of nanoseconds and saturates at the maximum
(resp. minimum) `time.Duration` on overflow. -/

/-- Maximum `time.Duration` (`1<<63 - 1` nanoseconds). -/
def maxDuration : Int := 9223372036854775807

/-- Minimum `time.Duration` (`-1 << 63` nanoseconds). -/
def minDuration : Int := -9223372036854775808

/-- A Go `time.Time`: the instant in nanoseconds since the zero time,
together with the local wall-clock `Hour()` and `Minute()` components
of that instant. -/
structure GoTime where
  nanos : Int
  hour : Nat
  minute : Nat
deriving DecidableEq

/-- The zero `time.Time` (the value of the `lastCheck` field of a
freshly constructed `Scheduler`). -/
def GoTime.zero : GoTime := { nanos := 0, hour := 0, minute := 0 }

/-- Go `t.Sub u`: the difference in nanoseconds, saturating at
the `time.Duration` bounds. -/
def GoTime.sub (t u : GoTime) : Int :=
  let d := t.nanos - u.nanos
  if d > maxDuration then maxDuration
  else if d < minDuration then minDuration
  else d

/-- Go `int(d.Seconds())` for a `time.Duration` of `d` nanoseconds:
truncating division by 10^9 (Go's float conversion truncates toward
zero and is exact in the int64 range). -/
def durationToSeconds (d : Int) : Int := Int.tdiv d 1000000000

/-! ## Storage (internal/storage/storage.go) -/

/-- A row of the `users` table. -/
structure User where
  ID : Int
  Username : String
  DailyLimitMins : Int
  Enabled : Bool
deriving DecidableEq

/-- A row of the `usage_log` table (`UNIQUE(user_id, date)`). -/
structure UsageRecord where
  UserID : Int
  Date : String
  UsedSeconds : Int
deriving DecidableEq

/-- A row of the `time_extensions` table (append-only ledger). -/
structure TimeExtension where
  UserID : Int
  Date : String
  Minutes : Int
  GrantedBy : String
deriving DecidableEq

/-- The database: the three tables the engine touches. -/
structure Storage where
  users : List User
  usage_log : List UsageRecord
  time_extensions : List TimeExtension
deriving DecidableEq

/-- Method `GetUserByID`: `SELECT ... FROM users WHERE id = ?` (ids are unique, so the first
match is the row). `sql.ErrNoRows` becomes `none` — the Go method
returns `(nil, nil)` in that case. -/
def Storage.GetUserByID (s : Storage) (id : Int) : Option User :=
  s.users.find? (fun u => u.ID == id)

/-- Method `AddUsageTime`: upsert into `usage_log` — insert `(userID, today,
seconds)` or, on conflict of `(user_id, date)`, add `seconds` to the
existing row's `used_seconds`. -/
def Storage.AddUsageTime (s : Storage) (today : String) (userID : Int) (seconds : Int) : Storage :=
  if s.usage_log.any (fun r => r.UserID == userID && r.Date == today) then
    { s with usage_log := s.usage_log.map (fun r =>
        if r.UserID == userID && r.Date == today then
          { r with UsedSeconds := r.UsedSeconds + seconds }
        else r) }
  else
    { s with usage_log := s.usage_log ++ [{ UserID := userID, Date := today, UsedSeconds := seconds }] }

/-- Method `GetTodayUsageSeconds`: the `used_seconds` of today's row, `0` when
there is no row (`sql.ErrNoRows`). -/
def Storage.GetTodayUsageSeconds (s : Storage) (today : String) (userID : Int) : Int :=
  match s.usage_log.find? (fun r => r.UserID == userID && r.Date == today) with
  | some r => r.UsedSeconds
  | none => 0

/-- Method `AddTimeExtension`: append a ledger row for today. -/
def Storage.AddTimeExtension (s : Storage) (today : String) (userID : Int) (minutes : Int)
    (grantedBy : String) : Storage :=
  { s with time_extensions :=
      s.time_extensions ++ [{ UserID := userID, Date := today, Minutes := minutes, GrantedBy := grantedBy }] }

/-- Sum of the `minutes` column of a list of extension rows. -/
def sumMinutes : List TimeExtension → Int
  | [] => 0
  | e :: rest => e.Minutes + sumMinutes rest

/-- Method `GetTodayExtensions`: `SELECT COALESCE(SUM(minutes), 0) ... WHERE
user_id = ? AND date = ?`. -/
def Storage.GetTodayExtensions (s : Storage) (today : String) (userID : Int) : Int :=
  sumMinutes (s.time_extensions.filter (fun e => e.UserID == userID && e.Date == today))

/-- Method `GetRemainingMinutes`, line for line.  A missing user (`user ==
nil` with `err == nil`) yields `.ok 0`; otherwise remaining is
`limit + extensions - used_seconds/60` (Go truncating division),
clamped below at `0`. -/
def Storage.GetRemainingMinutes (s : Storage) (today : String) (userID : Int) :
    Except String Int :=
  match s.GetUserByID userID with
  | none => Except.ok 0
  | some user =>
    let usedSeconds := s.GetTodayUsageSeconds today userID
    let extensions := s.GetTodayExtensions today userID
    let totalLimitMins := user.DailyLimitMins + extensions
    let usedMins := Int.tdiv usedSeconds 60
    let remaining := totalLimitMins - usedMins
    if remaining < 0 then Except.ok 0 else Except.ok remaining

/-! ## Scheduler (internal/scheduler/scheduler.go)

The Go struct owns two in-memory maps guarded by a mutex:
`warningsSent : map[string]map[int]bool` and
`activeSessions : map[string]time.Time`, plus the `lastCheck`
timestamp.  Maps are embedded as functions with the Go zero value as
default (`false` / absent).  The store, logind client, notifier chain
and channels live outside the state: each external call's result is
supplied by the `CheckEnv` oracle, and each call made is recorded as
an `Effect`. -/

/-- Field `warningsSent`: `ws username interval = true` iff the `interval`
minute warning was already sent to `username` today. -/
abbrev WarnState := String → Int → Bool

/-- The empty `warningsSent` map (`make(map[string]map[int]bool)`). -/
def emptyWarn : WarnState := fun _ _ => false

/-- Assignment `s.warningsSent[username][interval] = true`. -/
def markWarned (ws : WarnState) (username : String) (interval : Int) : WarnState :=
  fun u i => if u = username ∧ i = interval then true else ws u i

/-- In-memory scheduler state (the mutable fields of the Go struct). -/
structure Scheduler where
  warningsSent : WarnState
  activeSessions : String → Option GoTime
  lastCheck : GoTime

/-- Constructor `New`: fresh maps, zero `lastCheck` (the Go zero value — `New`
never initializes it). -/
def Scheduler.New : Scheduler :=
  { warningsSent := emptyWarn
    activeSessions := fun _ => none
    lastCheck := GoTime.zero }

/-- Method `ResetWarnings`: `delete(s.warningsSent, username)` — afterwards
every lookup for that user reads the absent inner map, i.e. `false`. -/
def Scheduler.ResetWarnings (s : Scheduler) (username : String) : Scheduler :=
  { s with warningsSent := fun u i => if u = username then false else s.warningsSent u i }

/-- A logind session as consumed by `check` (only the `UserName` field
of `dbus.Session` is read). -/
structure Session where
  UserName : String
deriving DecidableEq

/-- Configuration fields the check cycle reads. -/
structure Config where
  WarningIntervals : List Int

/-- Results of the external calls one `check` cycle can make, plus the
current wall clock.  `users`/`sessions` are the results of
`store.ListUsers()` / `logind.ListSessions()`; the remaining fields
give, per argument, whether/what each later call returns. -/
structure CheckEnv where
  now : GoTime
  users : Except String (List User)
  sessions : Except String (List Session)
  addUsageResult : Int → Int → Bool
  remainingResult : Int → Except String Int
  warnSendOk : String → Int → Bool
  lockNoticeOk : String → Bool
  lockOk : String → Bool

/-- Outward-visible calls a cycle makes, in order.  Failure of a call
is recorded in its `ok` flag (the Go code only logs it). -/
inductive Effect where
  | sessionStarted (username : String)
  | sessionEnded (username : String)
  | addUsage (userID : Int) (seconds : Int) (ok : Bool)
  | sendLockNotice (username : String) (ok : Bool)
  | sleepSeconds (seconds : Int)
  | lockSessions (username : String) (ok : Bool)
  | sendWarning (username : String) (interval : Int) (remaining : Int) (ok : Bool)
  | sendTimeExtended (username : String) (minutes : Int)
deriving DecidableEq

/-- One iteration of the `checkWarnings` loop (scheduler.go lines
173-181): if `remaining <= interval` and the interval is not yet in
this user's dedup set, send the warning (its success `sendOk interval`
is only logged) and then mark the interval as sent — the marking does
not depend on the send outcome. -/
def warnStep (username : String) (remaining : Int) (sendOk : Int → Bool)
    (acc : WarnState × List Effect) (interval : Int) : WarnState × List Effect :=
  if remaining ≤ interval ∧ acc.1 username interval = false then
    (markWarned acc.1 username interval,
     acc.2 ++ [Effect.sendWarning username interval remaining (sendOk interval)])
  else acc

/-- Method `checkWarnings` (scheduler.go lines 165-182): fold `warnStep` over
the configured intervals, starting from the current dedup state and no
sent warnings. -/
def checkWarnings (intervals : List Int) (username : String) (remaining : Int)
    (sendOk : Int → Bool) (ws : WarnState) : WarnState × List Effect :=
  intervals.foldl (warnStep username remaining sendOk) (ws, [])

/-- Method `handleTimeExpired` (scheduler.go lines 151-163): lock notice
(failure logged, flow continues), `time.Sleep(3 * time.Second)`, then
`LockUserSessions` (failure logged).  Scheduler state is untouched. -/
def Scheduler.handleTimeExpired (env : CheckEnv) (username : String) : List Effect :=
  [Effect.sendLockNotice username (env.lockNoticeOk username),
   Effect.sleepSeconds 3,
   Effect.lockSessions username (env.lockOk username)]

/-- First half of the per-user loop body of `check` (scheduler.go
lines 111-130): on a logged-in user with positive elapsed, record the
session start (first observation only) and call `AddUsageTime` with
`int(elapsed.Seconds())` — an error is only logged, the user's
processing continues; on a logged-out user drop the active-session
entry; a logged-in user with non-positive elapsed takes neither
branch. -/
def Scheduler.accrualStep (env : CheckEnv) (now : GoTime) (elapsed : Int) (isLoggedIn : Bool)
    (s : Scheduler) (user : User) : Scheduler × List Effect :=
  if isLoggedIn = true ∧ elapsed > 0 then
    let started : Scheduler × List Effect :=
      match s.activeSessions user.Username with
      | some _ => (s, [])
      | none =>
        ({ s with activeSessions := fun u =>
             if u = user.Username then some now else s.activeSessions u },
         [Effect.sessionStarted user.Username])
    let seconds := durationToSeconds elapsed
    (started.1, started.2 ++ [Effect.addUsage user.ID seconds (env.addUsageResult user.ID seconds)])
  else if isLoggedIn = false then
    match s.activeSessions user.Username with
    | some _ =>
      ({ s with activeSessions := fun u =>
           if u = user.Username then none else s.activeSessions u },
       [Effect.sessionEnded user.Username])
    | none => (s, [])
  else (s, [])

/-- Body of the per-user loop of `check` (scheduler.go lines 104-148):
skip disabled users; run the accrual step; logged-out users get no
warning/lock evaluation; a `GetRemainingMinutes` error skips the user;
`remaining <= 0` takes the time-expired path and skips warnings;
otherwise warnings are evaluated. -/
def Scheduler.processUser (cfg : Config) (env : CheckEnv) (now : GoTime) (elapsed : Int)
    (loggedIn : String → Bool) (s : Scheduler) (user : User) : Scheduler × List Effect :=
  if user.Enabled = false then (s, [])
  else
    let isLoggedIn := loggedIn user.Username
    let step1 := Scheduler.accrualStep env now elapsed isLoggedIn s user
    if isLoggedIn = false then step1
    else
      match env.remainingResult user.ID with
      | Except.error _ => step1
      | Except.ok remaining =>
        if remaining ≤ 0 then
          (step1.1, step1.2 ++ Scheduler.handleTimeExpired env user.Username)
        else
          let warned := checkWarnings cfg.WarningIntervals user.Username remaining
            (env.warnSendOk user.Username) step1.1.warningsSent
          ({ step1.1 with warningsSent := warned.1 }, step1.2 ++ warned.2)

/-- Midnight rollover step of `check` (scheduler.go lines 81-85): when
the tick lands in the first minute of the day (`Hour() == 0 &&
Minute() < 1`), replace `warningsSent` with a fresh empty map. -/
def midnightReset (now : GoTime) (s : Scheduler) : Scheduler :=
  if now.hour = 0 ∧ now.minute < 1 then { s with warningsSent := emptyWarn } else s

/-- The remainder of `check` after `lastCheck` is updated and the
midnight reset ran: bail out (errors logged) if listing users or
sessions failed, build the login-presence set, then run the per-user
loop. -/
def Scheduler.checkUsers (cfg : Config) (env : CheckEnv) (elapsed : Int) (s : Scheduler) :
    Scheduler × List Effect :=
  match env.users with
  | Except.error _ => (s, [])
  | Except.ok users =>
    match env.sessions with
    | Except.error _ => (s, [])
    | Except.ok sessions =>
      let loggedIn : String → Bool := fun username =>
        sessions.any (fun sess => sess.UserName == username)
      users.foldl
        (fun acc user =>
          let r := Scheduler.processUser cfg env env.now elapsed loggedIn acc.1 user
          (r.1, acc.2 ++ r.2))
        (s, [])

/-- Method `check` (scheduler.go lines 76-149): `elapsed = now - lastCheck`,
store `lastCheck = now`, midnight reset, then the per-user phase. -/
def Scheduler.check (cfg : Config) (env : CheckEnv) (s : Scheduler) : Scheduler × List Effect :=
  let elapsed := GoTime.sub env.now s.lastCheck
  Scheduler.checkUsers cfg env elapsed (midnightReset env.now { s with lastCheck := env.now })

/-! ## API layer (internal/api/handlers.go) -/

/-- The HTTP responses `apiExtendTime` can produce. -/
inductive ApiResult where
  | badRequest (msg : String)
  | notFound (msg : String)
  | extended (minutesAdded : Int) (remainingMins : Int)
deriving DecidableEq

/-- Handler `Server.apiExtendTime` (handlers.go lines 311-354).  `idParam` is
the parsed `{id}` URL segment (`none` = unparsable), `body` the
decoded `minutes` field (`none` = undecodable JSON).  Requests with
`minutes <= 0` are rejected before any write; on success an extension
row is appended, `SendTimeExtended` fires (its error is discarded) and
the fresh remaining minutes are echoed back.  The `Server` struct
holds no scheduler reference, so scheduler state cannot be touched
here. -/
def apiExtendTime (store : Storage) (today : String) (idParam : Option Int)
    (body : Option Int) : Storage × ApiResult × List Effect :=
  match idParam with
  | none => (store, ApiResult.badRequest "Invalid user ID", [])
  | some id =>
    match body with
    | none => (store, ApiResult.badRequest "Invalid request body", [])
    | some minutes =>
      if minutes ≤ 0 then
        (store, ApiResult.badRequest "Minutes must be positive", [])
      else
        match store.GetUserByID id with
        | none => (store, ApiResult.notFound "User not found", [])
        | some user =>
          let store2 := store.AddTimeExtension today id minutes "parent"
          let remaining :=
            match store2.GetRemainingMinutes today id with
            | Except.ok r => r
            | Except.error _ => 0
          (store2, ApiResult.extended minutes remaining,
           [Effect.sendTimeExtended user.Username minutes])

/-- The scheduler state alongside a call to `apiExtendTime`: the
handler has no path to the scheduler (the `Server` struct stores only
`store`, `logind`, `notifier`, `config`, `tmpl`), so the warning dedup
state rides along unchanged. -/
def systemExtendTime (store : Storage) (sched : Scheduler) (today : String)
    (idParam : Option Int) (body : Option Int) :
    (Storage × Scheduler) × ApiResult × List Effect :=
  let r := apiExtendTime store today idParam body
  ((r.1, sched), r.2.1, r.2.2)

/-! ## Helper lemmas about the storage model -/

theorem sumMinutes_append (l1 l2 : List TimeExtension) :
    sumMinutes (l1 ++ l2) = sumMinutes l1 + sumMinutes l2 := by
  induction l1 with
  | nil => simp [sumMinutes]
  | cons e rest ih => simp [sumMinutes, ih, add_assoc]

theorem GetUserByID_AddTimeExtension (s : Storage) (today : String) (uid m : Int)
    (g : String) (i : Int) :
    (s.AddTimeExtension today uid m g).GetUserByID i = s.GetUserByID i := rfl

theorem GetTodayUsageSeconds_AddTimeExtension (s : Storage) (today : String) (uid m : Int)
    (g : String) (d : String) (i : Int) :
    (s.AddTimeExtension today uid m g).GetTodayUsageSeconds d i
      = s.GetTodayUsageSeconds d i := rfl

theorem GetTodayExtensions_AddTimeExtension (s : Storage) (today : String) (uid m : Int)
    (g : String) :
    (s.AddTimeExtension today uid m g).GetTodayExtensions today uid
      = s.GetTodayExtensions today uid + m := by
  unfold Storage.AddTimeExtension Storage.GetTodayExtensions
  simp [List.filter_append, sumMinutes_append, sumMinutes]

theorem GetRemainingMinutes_formula (s : Storage) (today : String) (uid : Int) (user : User)
    (hu : s.GetUserByID uid = some user) :
    s.GetRemainingMinutes today uid =
      Except.ok (max 0 (user.DailyLimitMins + s.GetTodayExtensions today uid
        - Int.tdiv (s.GetTodayUsageSeconds today uid) 60)) := by
  unfold Storage.GetRemainingMinutes
  rw [hu]
  simp only []
  split
  next h => exact congrArg Except.ok (by omega)
  next h => exact congrArg Except.ok (by omega)

/-- Evaluation of `apiExtendTime` on a non-positive minutes value: rejected before
any write. -/
theorem apiExtendTime_nonpos (store : Storage) (today : String) (id m : Int) (hm : m ≤ 0) :
    apiExtendTime store today (some id) (some m)
      = (store, ApiResult.badRequest "Minutes must be positive", []) := by
  simp only [apiExtendTime]
  rw [if_pos hm]

/-- Evaluation of `apiExtendTime` on a positive minutes value for an existing user:
the extension row is appended and the fresh remaining minutes are
echoed back. -/
theorem apiExtendTime_accepted (store : Storage) (today : String) (id m : Int) (user : User)
    (hm : ¬ m ≤ 0) (hfind : store.GetUserByID id = some user) :
    apiExtendTime store today (some id) (some m)
      = (store.AddTimeExtension today id m "parent",
         ApiResult.extended m
           (match (store.AddTimeExtension today id m "parent").GetRemainingMinutes today id with
            | Except.ok r => r
            | Except.error _ => 0),
         [Effect.sendTimeExtended user.Username m]) := by
  simp only [apiExtendTime]
  rw [if_neg hm, hfind]

/-- Evaluation of `apiExtendTime` on a positive minutes value for a missing user:
404, no write. -/
theorem apiExtendTime_noUser (store : Storage) (today : String) (id m : Int)
    (hm : ¬ m ≤ 0) (hfind : store.GetUserByID id = none) :
    apiExtendTime store today (some id) (some m)
      = (store, ApiResult.notFound "User not found", []) := by
  simp only [apiExtendTime]
  rw [if_neg hm, hfind]

/-- A one-user store fixture used by concrete witnesses. -/
def sampleStore : Storage :=
  { users := [{ ID := 1, Username := "a", DailyLimitMins := 120, Enabled := true }],
    usage_log := [], time_extensions := [] }

/-! ## Claims about the accounting store -/

/-- Claim C6: for a user present in the store, whenever the
(non-negative) used seconds floor-divided by 60 reach the base daily
limit plus today's extensions, `GetRemainingMinutes` returns exactly
`0`, never a negative value; and in general it returns
`max 0 (limit + extensions_today - used_seconds_today/60)` with floor
division on the used seconds. -/
theorem C6_remaining_clamped (s : Storage) (today : String) (uid : Int) (user : User)
    (hu : s.GetUserByID uid = some user)
    (hnn : 0 ≤ s.GetTodayUsageSeconds today uid) :
    s.GetRemainingMinutes today uid =
      Except.ok (max 0 (user.DailyLimitMins + s.GetTodayExtensions today uid
        - Int.fdiv (s.GetTodayUsageSeconds today uid) 60)) ∧
    (user.DailyLimitMins + s.GetTodayExtensions today uid
        ≤ Int.fdiv (s.GetTodayUsageSeconds today uid) 60 →
      s.GetRemainingMinutes today uid = Except.ok 0) := by
  have hdiv : Int.fdiv (s.GetTodayUsageSeconds today uid) 60
      = Int.tdiv (s.GetTodayUsageSeconds today uid) 60 :=
    Int.fdiv_eq_tdiv hnn (by norm_num)
  constructor
  · rw [GetRemainingMinutes_formula s today uid user hu, hdiv]
  · intro hge
    rw [hdiv] at hge
    rw [GetRemainingMinutes_formula s today uid user hu]
    exact congrArg Except.ok (by omega)

/-- Witness for C6 at a concrete store: limit 120, 7800 used seconds
(130 minutes), no extensions — remaining is exactly 0. -/
theorem C6_witness :
    Storage.GetRemainingMinutes
      { users := [{ ID := 1, Username := "b", DailyLimitMins := 120, Enabled := true }],
        usage_log := [{ UserID := 1, Date := "d", UsedSeconds := 7800 }],
        time_extensions := [] } "d" 1 = Except.ok 0 :=
  (C6_remaining_clamped
    { users := [{ ID := 1, Username := "b", DailyLimitMins := 120, Enabled := true }],
      usage_log := [{ UserID := 1, Date := "d", UsedSeconds := 7800 }],
      time_extensions := [] } "d" 1
    { ID := 1, Username := "b", DailyLimitMins := 120, Enabled := true }
    (by rfl) (by decide)).2 (by decide)

/-- Claim C10: `GetRemainingMinutes` for a userID that is not in the
store returns `ok 0` — zero remaining with no error — which is the
same answer an existing, budget-exhausted user gets. -/
theorem C10_missing_user (s : Storage) (today : String) (uid : Int)
    (h : s.GetUserByID uid = none) :
    s.GetRemainingMinutes today uid = Except.ok 0 ∧
    ∀ (s2 : Storage) (user : User), s2.GetUserByID uid = some user →
      user.DailyLimitMins + s2.GetTodayExtensions today uid
          ≤ Int.tdiv (s2.GetTodayUsageSeconds today uid) 60 →
      s2.GetRemainingMinutes today uid = Except.ok 0 := by
  constructor
  · unfold Storage.GetRemainingMinutes
    rw [h]
  · intro s2 user hu hge
    rw [GetRemainingMinutes_formula s2 today uid user hu]
    exact congrArg Except.ok (by omega)

/-- Witness for C10: the empty store has no user 1, yet remaining is
`ok 0`; an exhausted user (limit 1, 60 used seconds) gets the same. -/
theorem C10_witness :
    Storage.GetRemainingMinutes { users := [], usage_log := [], time_extensions := [] } "d" 1
      = Except.ok 0 ∧
    Storage.GetRemainingMinutes
      { users := [{ ID := 1, Username := "b", DailyLimitMins := 1, Enabled := true }],
        usage_log := [{ UserID := 1, Date := "d", UsedSeconds := 60 }],
        time_extensions := [] } "d" 1 = Except.ok 0 :=
  ⟨(C10_missing_user { users := [], usage_log := [], time_extensions := [] } "d" 1 rfl).1,
   (C10_missing_user { users := [], usage_log := [], time_extensions := [] } "d" 1 rfl).2
     { users := [{ ID := 1, Username := "b", DailyLimitMins := 1, Enabled := true }],
       usage_log := [{ UserID := 1, Date := "d", UsedSeconds := 60 }],
       time_extensions := [] }
     { ID := 1, Username := "b", DailyLimitMins := 1, Enabled := true }
     rfl (by decide)⟩

/-- Claim C3 counterexample: user 1 has limit 120 and 7800 used
seconds (130 minutes), so remaining is clamped to 0; granting a
15-minute extension then yields remaining 5, not 0 + 15 = 15 — the
grant does not increase `GetRemainingMinutes` by exactly the granted
minutes when usage has overshot the limit. -/
theorem C3_counterexample :
    Storage.GetRemainingMinutes
      { users := [{ ID := 1, Username := "c", DailyLimitMins := 120, Enabled := true }],
        usage_log := [{ UserID := 1, Date := "d", UsedSeconds := 7800 }],
        time_extensions := [] } "d" 1 = Except.ok 0 ∧
    Storage.GetRemainingMinutes
      (Storage.AddTimeExtension
        { users := [{ ID := 1, Username := "c", DailyLimitMins := 120, Enabled := true }],
          usage_log := [{ UserID := 1, Date := "d", UsedSeconds := 7800 }],
          time_extensions := [] } "d" 1 15 "parent") "d" 1 = Except.ok 5 :=
  ⟨rfl, rfl⟩

/-- Claim C3 amended: `AddTimeExtension(user, m, grantedBy)` with
`m > 0` increases `GetRemainingMinutes` by exactly `m` provided
today's usage has not overshot the pre-grant effective limit
(`used/60 <= limit + extensions`); this includes a user sitting
exactly at remaining 0.  (When usage has overshot the limit the
increase is smaller, per the counterexample.) -/
theorem C3_amended (s : Storage) (today g : String) (uid m : Int) (user : User)
    (hu : s.GetUserByID uid = some user) (hm : 0 < m)
    (hno : Int.tdiv (s.GetTodayUsageSeconds today uid) 60
        ≤ user.DailyLimitMins + s.GetTodayExtensions today uid) :
    ∃ r, 0 ≤ r ∧ s.GetRemainingMinutes today uid = Except.ok r ∧
      (s.AddTimeExtension today uid m g).GetRemainingMinutes today uid
        = Except.ok (r + m) := by
  refine ⟨user.DailyLimitMins + s.GetTodayExtensions today uid
      - Int.tdiv (s.GetTodayUsageSeconds today uid) 60, by omega, ?_, ?_⟩
  · rw [GetRemainingMinutes_formula s today uid user hu]
    exact congrArg Except.ok (by omega)
  · have hu2 : (s.AddTimeExtension today uid m g).GetUserByID uid = some user := by
      rw [GetUserByID_AddTimeExtension]
      exact hu
    rw [GetRemainingMinutes_formula (s.AddTimeExtension today uid m g) today uid user hu2,
        GetTodayExtensions_AddTimeExtension, GetTodayUsageSeconds_AddTimeExtension]
    exact congrArg Except.ok (by omega)

/-- Witness for the amended C3: the spec scenario — a user at exactly
remaining 0 (7200 used seconds against limit 120) granted +15 ends at
remaining 15. -/
theorem C3_amended_witness :
    ∃ r, 0 ≤ r ∧
      Storage.GetRemainingMinutes
        { users := [{ ID := 1, Username := "c", DailyLimitMins := 120, Enabled := true }],
          usage_log := [{ UserID := 1, Date := "d", UsedSeconds := 7200 }],
          time_extensions := [] } "d" 1 = Except.ok r ∧
      Storage.GetRemainingMinutes
        (Storage.AddTimeExtension
          { users := [{ ID := 1, Username := "c", DailyLimitMins := 120, Enabled := true }],
            usage_log := [{ UserID := 1, Date := "d", UsedSeconds := 7200 }],
            time_extensions := [] } "d" 1 15 "parent") "d" 1 = Except.ok (r + 15) :=
  C3_amended
    { users := [{ ID := 1, Username := "c", DailyLimitMins := 120, Enabled := true }],
      usage_log := [{ UserID := 1, Date := "d", UsedSeconds := 7200 }],
      time_extensions := [] } "d" "parent" 1 15
    { ID := 1, Username := "c", DailyLimitMins := 120, Enabled := true }
    rfl (by decide) (by decide)

/-- Claim C9: extension grants accepted through the API are strictly
positive (a `minutes <= 0` request is rejected with a 400 before any
write), a successful grant appends exactly the granted minutes to
today's extension sum, and the remaining-budget computation uses base
daily limit plus that day's extension sum as the effective limit. -/
theorem C9_extension_invariants :
    (∀ (store : Storage) (today : String) (id m : Int), m ≤ 0 →
      (apiExtendTime store today (some id) (some m)).2.1
        = ApiResult.badRequest "Minutes must be positive") ∧
    (∀ (store : Storage) (today : String) (id m ma r : Int),
      (apiExtendTime store today (some id) (some m)).2.1 = ApiResult.extended ma r →
      0 < m ∧ ma = m ∧
      (apiExtendTime store today (some id) (some m)).1.GetTodayExtensions today id
        = store.GetTodayExtensions today id + m) ∧
    (∀ (s : Storage) (today : String) (uid : Int) (user : User),
      s.GetUserByID uid = some user →
      s.GetRemainingMinutes today uid =
        Except.ok (max 0 ((user.DailyLimitMins + s.GetTodayExtensions today uid)
          - Int.tdiv (s.GetTodayUsageSeconds today uid) 60))) := by
  refine ⟨?_, ?_, ?_⟩
  · intro store today id m hm
    rw [apiExtendTime_nonpos store today id m hm]
  · intro store today id m ma r h
    by_cases hm : m ≤ 0
    · rw [apiExtendTime_nonpos store today id m hm] at h
      exact absurd h (by simp)
    · cases hfind : store.GetUserByID id with
      | none =>
        rw [apiExtendTime_noUser store today id m hm hfind] at h
        exact absurd h (by simp)
      | some user =>
        rw [apiExtendTime_accepted store today id m user hm hfind] at h ⊢
        refine ⟨by omega, ?_, ?_⟩
        · cases h
          rfl
        · exact GetTodayExtensions_AddTimeExtension store today id m "parent"
  · intro s today uid user hu
    exact GetRemainingMinutes_formula s today uid user hu

/-- Witness for C9: minutes 0 is rejected; a +15 grant to the sample
user is accepted, positive, and adds 15 to the extension sum; the
remaining formula holds on the sample store. -/
theorem C9_witness :
    ((apiExtendTime sampleStore "d" (some 1) (some 0)).2.1
        = ApiResult.badRequest "Minutes must be positive") ∧
    (0 < (15 : Int) ∧ (15 : Int) = 15 ∧
      (apiExtendTime sampleStore "d" (some 1) (some 15)).1.GetTodayExtensions "d" 1
        = sampleStore.GetTodayExtensions "d" 1 + 15) ∧
    (sampleStore.GetRemainingMinutes "d" 1
        = Except.ok (max 0 ((120 + sampleStore.GetTodayExtensions "d" 1)
            - Int.tdiv (sampleStore.GetTodayUsageSeconds "d" 1) 60))) :=
  ⟨C9_extension_invariants.1 sampleStore "d" 1 0 (by decide),
   C9_extension_invariants.2.1 sampleStore "d" 1 15 15 135 (by rfl),
   C9_extension_invariants.2.2 sampleStore "d" 1
     { ID := 1, Username := "a", DailyLimitMins := 120, Enabled := true } (by rfl)⟩

/-! ## Warning dedup machinery (for claim C4) -/

/-- Recognizer for a warning effect at a given user and threshold
(the triggering threshold is observable: the Go code logs
`Sending %d minute warning`). -/
def isWarnFor (username : String) (t : Int) : Effect → Bool
  | Effect.sendWarning u i _ _ => u == username && i == t
  | _ => false

/-- Number of warning notices for threshold `t` to `username` in an
effect list. -/
def countWarn (username : String) (t : Int) (effs : List Effect) : Nat :=
  (effs.filter (isWarnFor username t)).length

/-- A sequence of `checkWarnings` cycles threading the dedup state
(one calendar day: no midnight clear, no `ResetWarnings`, no restart):
each cycle supplies the remaining minutes observed and the
per-threshold notification outcome. -/
def runWarnCycles (intervals : List Int) (username : String) :
    WarnState → List (Int × (Int → Bool)) → WarnState × List Effect
  | ws, [] => (ws, [])
  | ws, c :: rest =>
    let r1 := checkWarnings intervals username c.1 c.2 ws
    let r2 := runWarnCycles intervals username r1.1 rest
    (r2.1, r1.2 ++ r2.2)

theorem countWarn_append (username : String) (t : Int) (l1 l2 : List Effect) :
    countWarn username t (l1 ++ l2) = countWarn username t l1 + countWarn username t l2 := by
  unfold countWarn
  rw [List.filter_append, List.length_append]

theorem countWarn_single_warn (username : String) (t a rem : Int) (ok : Bool) :
    countWarn username t [Effect.sendWarning username a rem ok]
      = if a = t then 1 else 0 := by
  unfold countWarn isWarnFor
  by_cases h : a = t
  · subst h
    simp
  · simp [h]

theorem markWarned_mono (ws : WarnState) (u0 : String) (i0 : Int) (u : String) (i : Int)
    (h : ws u i = true) : markWarned ws u0 i0 u i = true := by
  unfold markWarned
  split
  · rfl
  · exact h

theorem markWarned_self (ws : WarnState) (u0 : String) (i0 : Int) :
    markWarned ws u0 i0 u0 i0 = true := by
  unfold markWarned
  rw [if_pos ⟨rfl, rfl⟩]

/-- Combined invariant of the `checkWarnings` fold, for an arbitrary
starting accumulator: the dedup state only grows; a threshold already
marked is never sent again; at most one new notice for any threshold
is produced; and a produced notice leaves its threshold marked. -/
theorem warnFold_inv (username : String) (remaining : Int) (sendOk : Int → Bool) (t : Int) :
    ∀ (intervals : List Int) (ws : WarnState) (effs : List Effect),
      (∀ u i, ws u i = true →
        (List.foldl (warnStep username remaining sendOk) (ws, effs) intervals).1 u i = true) ∧
      (ws username t = true →
        countWarn username t
          (List.foldl (warnStep username remaining sendOk) (ws, effs) intervals).2
          = countWarn username t effs) ∧
      (countWarn username t
          (List.foldl (warnStep username remaining sendOk) (ws, effs) intervals).2
        ≤ countWarn username t effs + 1) ∧
      (countWarn username t effs <
          countWarn username t
            (List.foldl (warnStep username remaining sendOk) (ws, effs) intervals).2 →
        (List.foldl (warnStep username remaining sendOk) (ws, effs) intervals).1 username t
          = true) := by
  intro intervals
  induction intervals with
  | nil =>
    intro ws effs
    exact ⟨fun u i h => h, fun _ => rfl, Nat.le_succ _, fun hlt => absurd hlt (lt_irrefl _)⟩
  | cons a rest ih =>
    intro ws effs
    rw [List.foldl_cons]
    by_cases hc : remaining ≤ a ∧ ws username a = false
    · have hstep : warnStep username remaining sendOk (ws, effs) a
          = (markWarned ws username a,
             effs ++ [Effect.sendWarning username a remaining (sendOk a)]) := by
        unfold warnStep
        rw [if_pos hc]
      rw [hstep]
      obtain ⟨ih1, ih2, ih3, ih4⟩ := ih (markWarned ws username a)
        (effs ++ [Effect.sendWarning username a remaining (sendOk a)])
      by_cases hat : a = t
      · subst hat
        have hcount : countWarn username a
            (effs ++ [Effect.sendWarning username a remaining (sendOk a)])
            = countWarn username a effs + 1 := by
          rw [countWarn_append, countWarn_single_warn, if_pos rfl]
        refine ⟨?_, ?_, ?_, ?_⟩
        · intro u i h
          exact ih1 u i (markWarned_mono ws username a u i h)
        · intro hws
          rw [hc.2] at hws
          exact Bool.noConfusion hws
        · rw [ih2 (markWarned_self ws username a), hcount]
        · intro _
          exact ih1 username a (markWarned_self ws username a)
      · have hcount : countWarn username t
            (effs ++ [Effect.sendWarning username a remaining (sendOk a)])
            = countWarn username t effs := by
          rw [countWarn_append, countWarn_single_warn, if_neg hat]
          omega
        refine ⟨?_, ?_, ?_, ?_⟩
        · intro u i h
          exact ih1 u i (markWarned_mono ws username a u i h)
        · intro hws
          rw [ih2 (markWarned_mono ws username a username t hws), hcount]
        · rw [hcount] at ih3
          exact ih3
        · intro hlt
          rw [← hcount] at hlt
          exact ih4 hlt
    · have hstep : warnStep username remaining sendOk (ws, effs) a = (ws, effs) := by
        unfold warnStep
        rw [if_neg hc]
      rw [hstep]
      exact ih ws effs

theorem checkWarnings_mono (intervals : List Int) (username : String) (remaining : Int)
    (sendOk : Int → Bool) (ws : WarnState) (u : String) (i : Int) (h : ws u i = true) :
    (checkWarnings intervals username remaining sendOk ws).1 u i = true :=
  (warnFold_inv username remaining sendOk 0 intervals ws []).1 u i h

theorem checkWarnings_no_resend (intervals : List Int) (username : String) (remaining : Int)
    (sendOk : Int → Bool) (ws : WarnState) (t : Int) (h : ws username t = true) :
    countWarn username t (checkWarnings intervals username remaining sendOk ws).2 = 0 :=
  (warnFold_inv username remaining sendOk t intervals ws []).2.1 h

theorem checkWarnings_le_one (intervals : List Int) (username : String) (remaining : Int)
    (sendOk : Int → Bool) (ws : WarnState) (t : Int) :
    countWarn username t (checkWarnings intervals username remaining sendOk ws).2 ≤ 1 :=
  (warnFold_inv username remaining sendOk t intervals ws []).2.2.1

theorem checkWarnings_sent_marked (intervals : List Int) (username : String) (remaining : Int)
    (sendOk : Int → Bool) (ws : WarnState) (t : Int)
    (h : 0 < countWarn username t (checkWarnings intervals username remaining sendOk ws).2) :
    (checkWarnings intervals username remaining sendOk ws).1 username t = true :=
  (warnFold_inv username remaining sendOk t intervals ws []).2.2.2 h

/-- After a pass in which some configured threshold `t` satisfies
`remaining <= t`, that threshold is marked in the dedup state — the
marking happens whether or not the notification delivery succeeded. -/
theorem warnFold_marks (username : String) (remaining : Int) (sendOk : Int → Bool) (t : Int) :
    ∀ (intervals : List Int) (acc : WarnState × List Effect),
      t ∈ intervals → remaining ≤ t →
      (List.foldl (warnStep username remaining sendOk) acc intervals).1 username t = true := by
  intro intervals
  induction intervals with
  | nil =>
    intro acc hmem hr
    exact absurd hmem (List.not_mem_nil t)
  | cons a rest ih =>
    intro acc hmem hr
    rw [List.foldl_cons]
    by_cases hrest : t ∈ rest
    · exact ih _ hrest hr
    · have hat : a = t := by
        rcases List.mem_cons.mp hmem with h | h
        · exact h.symm
        · exact absurd h hrest
      subst hat
      have hmarked : (warnStep username remaining sendOk acc a).1 username a = true := by
        unfold warnStep
        by_cases hcond : remaining ≤ a ∧ acc.1 username a = false
        · rw [if_pos hcond]
          exact markWarned_self _ _ _
        · rw [if_neg hcond]
          cases hb : acc.1 username a with
          | false => exact absurd ⟨hr, hb⟩ hcond
          | true => rfl
      exact (warnFold_inv username remaining sendOk 0 rest
        (warnStep username remaining sendOk acc a).1
        (warnStep username remaining sendOk acc a).2).1 username a hmarked

theorem runWarnCycles_cons (intervals : List Int) (username : String) (ws : WarnState)
    (c : Int × (Int → Bool)) (rest : List (Int × (Int → Bool))) :
    runWarnCycles intervals username ws (c :: rest)
      = ((runWarnCycles intervals username
            (checkWarnings intervals username c.1 c.2 ws).1 rest).1,
         (checkWarnings intervals username c.1 c.2 ws).2
           ++ (runWarnCycles intervals username
            (checkWarnings intervals username c.1 c.2 ws).1 rest).2) := rfl

/-- Across any sequence of cycles within a day: the dedup state only
grows, a threshold marked at the start is never sent, and any
threshold is sent at most once in total. -/
theorem runWarnCycles_inv (intervals : List Int) (username : String) (t : Int) :
    ∀ (cycles : List (Int × (Int → Bool))) (ws : WarnState),
      (∀ u i, ws u i = true → (runWarnCycles intervals username ws cycles).1 u i = true) ∧
      (ws username t = true →
        countWarn username t (runWarnCycles intervals username ws cycles).2 = 0) ∧
      countWarn username t (runWarnCycles intervals username ws cycles).2 ≤ 1 := by
  intro cycles
  induction cycles with
  | nil =>
    intro ws
    exact ⟨fun u i h => h, fun _ => rfl, Nat.zero_le 1⟩
  | cons c rest ih =>
    intro ws
    obtain ⟨ih1, ih2, ih3⟩ := ih (checkWarnings intervals username c.1 c.2 ws).1
    rw [runWarnCycles_cons]
    refine ⟨?_, ?_, ?_⟩
    · intro u i h
      exact ih1 u i (checkWarnings_mono intervals username c.1 c.2 ws u i h)
    · intro hws
      rw [countWarn_append,
        checkWarnings_no_resend intervals username c.1 c.2 ws t hws,
        ih2 (checkWarnings_mono intervals username c.1 c.2 ws username t hws)]
    · rw [countWarn_append]
      by_cases h1 : countWarn username t (checkWarnings intervals username c.1 c.2 ws).2 = 0
      · omega
      · have hmark := checkWarnings_sent_marked intervals username c.1 c.2 ws t (by omega)
        have h2 := ih2 hmark
        have hle := checkWarnings_le_one intervals username c.1 c.2 ws t
        omega

/-- Claim C4: for every user, every threshold and every sequence of
check cycles within one calendar day (no clearing in between), a
warning notice for that threshold is sent at most once; once a
threshold is marked in the dedup set it is never re-sent; and after a
pass in which the threshold qualifies it is marked regardless of the
notification outcome (the `sendOk` oracle is universally quantified,
so in particular when delivery fails). -/
theorem C4_warning_at_most_once (intervals : List Int) (username : String) (t : Int) :
    (∀ (ws : WarnState) (cycles : List (Int × (Int → Bool))),
      countWarn username t (runWarnCycles intervals username ws cycles).2 ≤ 1) ∧
    (∀ (ws : WarnState) (remaining : Int) (sendOk : Int → Bool),
      ws username t = true →
      countWarn username t (checkWarnings intervals username remaining sendOk ws).2 = 0) ∧
    (∀ (ws : WarnState) (remaining : Int) (sendOk : Int → Bool),
      t ∈ intervals → remaining ≤ t →
      (checkWarnings intervals username remaining sendOk ws).1 username t = true) :=
  ⟨fun ws cycles => (runWarnCycles_inv intervals username t cycles ws).2.2,
   fun ws remaining sendOk h =>
     checkWarnings_no_resend intervals username remaining sendOk ws t h,
   fun ws remaining sendOk hmem hr =>
     warnFold_marks username remaining sendOk t intervals (ws, []) hmem hr⟩

/-- Witness for C4 on the default thresholds: three cycles at
remaining 4, 3, 2 send the 5-minute warning exactly once; a marked
threshold stays silent; a qualifying pass with failing delivery still
marks the threshold. -/
theorem C4_witness :
    countWarn "a" 5
      (runWarnCycles [5, 1] "a" emptyWarn
        [(4, fun _ => false), (3, fun _ => true), (2, fun _ => false)]).2 ≤ 1 ∧
    countWarn "a" 5
      (checkWarnings [5, 1] "a" 4 (fun _ => false) (markWarned emptyWarn "a" 5)).2 = 0 ∧
    (checkWarnings [5, 1] "a" 4 (fun _ => false) emptyWarn).1 "a" 5 = true :=
  ⟨(C4_warning_at_most_once [5, 1] "a" 5).1 emptyWarn
     [(4, fun _ => false), (3, fun _ => true), (2, fun _ => false)],
   (C4_warning_at_most_once [5, 1] "a" 5).2.1 (markWarned emptyWarn "a" 5) 4
     (fun _ => false) (by decide),
   (C4_warning_at_most_once [5, 1] "a" 5).2.2 emptyWarn 4 (fun _ => false)
     (by decide) (by decide)⟩

/-! ## Per-user cycle lemmas (for claims C1, C2, C5, C7, C8) -/

/-- The accrual step never touches the warning dedup state. -/
theorem accrualStep_warningsSent (env : CheckEnv) (now : GoTime) (elapsed : Int)
    (isLoggedIn : Bool) (s : Scheduler) (user : User) :
    (Scheduler.accrualStep env now elapsed isLoggedIn s user).1.warningsSent
      = s.warningsSent := by
  unfold Scheduler.accrualStep
  split
  · split <;> rfl
  · split
    · split <;> rfl
    · rfl

/-- The accrual step emits no warning notices. -/
theorem accrualStep_no_warn (env : CheckEnv) (now : GoTime) (elapsed : Int)
    (isLoggedIn : Bool) (s : Scheduler) (user : User) (u : String) (i rem : Int) (ok : Bool) :
    Effect.sendWarning u i rem ok ∉ (Scheduler.accrualStep env now elapsed isLoggedIn s user).2 := by
  unfold Scheduler.accrualStep
  split
  · split <;> simp
  · split
    · split <;> simp
    · simp

/-- A logged-in user with positive elapsed gets an `AddUsageTime` call
for `int(elapsed.Seconds())` seconds, whatever its outcome. -/
theorem accrualStep_addUsage_mem (env : CheckEnv) (now : GoTime) (elapsed : Int)
    (s : Scheduler) (user : User) (hel : 0 < elapsed) :
    Effect.addUsage user.ID (durationToSeconds elapsed)
        (env.addUsageResult user.ID (durationToSeconds elapsed))
      ∈ (Scheduler.accrualStep env now elapsed true s user).2 := by
  unfold Scheduler.accrualStep
  rw [if_pos ⟨rfl, hel⟩]
  split <;> simp

/-- Running `processUser` on an enabled, logged-in user whose remaining
budget came back `ok r` with `r <= 0`: accrual step, then the time-expired
effects. -/
theorem processUser_expired (cfg : Config) (env : CheckEnv) (now : GoTime) (elapsed : Int)
    (loggedIn : String → Bool) (s : Scheduler) (user : User) (r : Int)
    (hen : user.Enabled = true) (hlog : loggedIn user.Username = true)
    (hrem : env.remainingResult user.ID = Except.ok r) (hr : r ≤ 0) :
    Scheduler.processUser cfg env now elapsed loggedIn s user
      = ((Scheduler.accrualStep env now elapsed true s user).1,
         (Scheduler.accrualStep env now elapsed true s user).2
           ++ Scheduler.handleTimeExpired env user.Username) := by
  unfold Scheduler.processUser
  simp only [hen, hlog, hrem]
  simp only [Bool.true_eq_false, if_false]
  rw [if_pos hr]

/-- Running `processUser` on an enabled, logged-in user whose remaining
budget came back `ok r` with `r > 0`: accrual step, then warning
evaluation. -/
theorem processUser_warn (cfg : Config) (env : CheckEnv) (now : GoTime) (elapsed : Int)
    (loggedIn : String → Bool) (s : Scheduler) (user : User) (r : Int)
    (hen : user.Enabled = true) (hlog : loggedIn user.Username = true)
    (hrem : env.remainingResult user.ID = Except.ok r) (hr : 0 < r) :
    Scheduler.processUser cfg env now elapsed loggedIn s user
      = ({ (Scheduler.accrualStep env now elapsed true s user).1 with
            warningsSent := (checkWarnings cfg.WarningIntervals user.Username r
              (env.warnSendOk user.Username)
              (Scheduler.accrualStep env now elapsed true s user).1.warningsSent).1 },
         (Scheduler.accrualStep env now elapsed true s user).2
           ++ (checkWarnings cfg.WarningIntervals user.Username r
              (env.warnSendOk user.Username)
              (Scheduler.accrualStep env now elapsed true s user).1.warningsSent).2) := by
  unfold Scheduler.processUser
  simp only [hen, hlog, hrem]
  simp only [Bool.true_eq_false, if_false]
  rw [if_neg (by omega)]

/-! ## Claims about the check cycle -/

/-- Claim C5: in a check cycle, an enabled logged-in user whose
remaining budget is `<= 0` takes the time-expired path — a lock notice
(flow continues whatever its outcome, which is recorded in the effect),
a fixed 3-second grace sleep, then `LockUserSessions` — and no warning
notice is emitted for that user in that cycle, with the warning dedup
state left untouched. -/
theorem C5_time_expired_path (cfg : Config) (env : CheckEnv) (now : GoTime) (elapsed : Int)
    (loggedIn : String → Bool) (s : Scheduler) (user : User) (r : Int)
    (hen : user.Enabled = true) (hlog : loggedIn user.Username = true)
    (hrem : env.remainingResult user.ID = Except.ok r) (hr : r ≤ 0) :
    (∃ s1 effs1,
      Scheduler.processUser cfg env now elapsed loggedIn s user
        = (s1, effs1 ++ [Effect.sendLockNotice user.Username (env.lockNoticeOk user.Username),
                         Effect.sleepSeconds 3,
                         Effect.lockSessions user.Username (env.lockOk user.Username)])
        ∧ s1.warningsSent = s.warningsSent) ∧
    ∀ (u : String) (i rem : Int) (ok : Bool),
      Effect.sendWarning u i rem ok
        ∉ (Scheduler.processUser cfg env now elapsed loggedIn s user).2 := by
  have hp := processUser_expired cfg env now elapsed loggedIn s user r hen hlog hrem hr
  constructor
  · exact ⟨(Scheduler.accrualStep env now elapsed true s user).1,
      (Scheduler.accrualStep env now elapsed true s user).2,
      by rw [hp]; rfl,
      accrualStep_warningsSent env now elapsed true s user⟩
  · intro u i rem ok hmem
    rw [hp] at hmem
    rcases List.mem_append.mp hmem with h | h
    · exact accrualStep_no_warn env now elapsed true s user u i rem ok h
    · simp [Scheduler.handleTimeExpired] at h

/-- Witness for C5: a concrete expired user — the effect trace is the
accrual call followed by lock notice, 3-second sleep, lock. -/
theorem C5_witness :
    (∃ s1 effs1,
      Scheduler.processUser { WarningIntervals := [5, 1] }
          { now := { nanos := 63871000000000000000, hour := 12, minute := 0 },
            users := Except.ok [{ ID := 1, Username := "a", DailyLimitMins := 120, Enabled := true }],
            sessions := Except.ok [{ UserName := "a" }],
            addUsageResult := fun _ _ => true,
            remainingResult := fun _ => Except.ok 0,
            warnSendOk := fun _ _ => true,
            lockNoticeOk := fun _ => true,
            lockOk := fun _ => true }
          { nanos := 63871000000000000000, hour := 12, minute := 0 } 60000000000
          (fun _ => true) Scheduler.New
          { ID := 1, Username := "a", DailyLimitMins := 120, Enabled := true }
        = (s1, effs1 ++ [Effect.sendLockNotice "a" true,
                         Effect.sleepSeconds 3,
                         Effect.lockSessions "a" true])
        ∧ s1.warningsSent = Scheduler.New.warningsSent) ∧
    ∀ (u : String) (i rem : Int) (ok : Bool),
      Effect.sendWarning u i rem ok
        ∉ (Scheduler.processUser { WarningIntervals := [5, 1] }
          { now := { nanos := 63871000000000000000, hour := 12, minute := 0 },
            users := Except.ok [{ ID := 1, Username := "a", DailyLimitMins := 120, Enabled := true }],
            sessions := Except.ok [{ UserName := "a" }],
            addUsageResult := fun _ _ => true,
            remainingResult := fun _ => Except.ok 0,
            warnSendOk := fun _ _ => true,
            lockNoticeOk := fun _ => true,
            lockOk := fun _ => true }
          { nanos := 63871000000000000000, hour := 12, minute := 0 } 60000000000
          (fun _ => true) Scheduler.New
          { ID := 1, Username := "a", DailyLimitMins := 120, Enabled := true }).2 :=
  C5_time_expired_path { WarningIntervals := [5, 1] }
    { now := { nanos := 63871000000000000000, hour := 12, minute := 0 },
      users := Except.ok [{ ID := 1, Username := "a", DailyLimitMins := 120, Enabled := true }],
      sessions := Except.ok [{ UserName := "a" }],
      addUsageResult := fun _ _ => true,
      remainingResult := fun _ => Except.ok 0,
      warnSendOk := fun _ _ => true,
      lockNoticeOk := fun _ => true,
      lockOk := fun _ => true }
    { nanos := 63871000000000000000, hour := 12, minute := 0 } 60000000000
    (fun _ => true) Scheduler.New
    { ID := 1, Username := "a", DailyLimitMins := 120, Enabled := true } 0
    rfl rfl rfl (by omega)

/-- Claim C7 counterexample: `AddUsageTime` fails (`ok := false` on the
recorded call), yet the very same cycle still reads the remaining
budget and runs the lock path for that user — the user's cycle is not
abandoned after the failed accrual. -/
theorem C7_counterexample :
    (Scheduler.processUser { WarningIntervals := [5, 1] }
        { now := { nanos := 63871000000000000000, hour := 12, minute := 0 },
          users := Except.ok [{ ID := 1, Username := "a", DailyLimitMins := 120, Enabled := true }],
          sessions := Except.ok [{ UserName := "a" }],
          addUsageResult := fun _ _ => false,
          remainingResult := fun _ => Except.ok 0,
          warnSendOk := fun _ _ => true,
          lockNoticeOk := fun _ => true,
          lockOk := fun _ => true }
        { nanos := 63871000000000000000, hour := 12, minute := 0 } 60000000000
        (fun _ => true) Scheduler.New
        { ID := 1, Username := "a", DailyLimitMins := 120, Enabled := true }).2
      = [Effect.sessionStarted "a", Effect.addUsage 1 60 false,
         Effect.sendLockNotice "a" true, Effect.sleepSeconds 3,
         Effect.lockSessions "a" true] := rfl

/-- Claim C7 amended: when `AddUsageTime` fails for an enabled
logged-in user, the failure is only logged and the engine continues
with that same user — the failed call is recorded, the lock path still
runs in that cycle when remaining `<= 0`, and warning evaluation still
runs (from the unchanged dedup state) when remaining `> 0`.  The loop
itself is unaffected. -/
theorem C7_failed_accrual_continues (cfg : Config) (env : CheckEnv) (now : GoTime)
    (elapsed : Int) (loggedIn : String → Bool) (s : Scheduler) (user : User) (r : Int)
    (hen : user.Enabled = true) (hlog : loggedIn user.Username = true)
    (hel : 0 < elapsed)
    (hfail : env.addUsageResult user.ID (durationToSeconds elapsed) = false)
    (hrem : env.remainingResult user.ID = Except.ok r) :
    (Effect.addUsage user.ID (durationToSeconds elapsed) false
        ∈ (Scheduler.processUser cfg env now elapsed loggedIn s user).2) ∧
    (r ≤ 0 → Effect.lockSessions user.Username (env.lockOk user.Username)
        ∈ (Scheduler.processUser cfg env now elapsed loggedIn s user).2) ∧
    (0 < r → (Scheduler.processUser cfg env now elapsed loggedIn s user).1.warningsSent
        = (checkWarnings cfg.WarningIntervals user.Username r
            (env.warnSendOk user.Username) s.warningsSent).1) := by
  have hadd : Effect.addUsage user.ID (durationToSeconds elapsed) false
      ∈ (Scheduler.accrualStep env now elapsed true s user).2 := by
    have h := accrualStep_addUsage_mem env now elapsed s user hel
    rw [hfail] at h
    exact h
  refine ⟨?_, ?_, ?_⟩
  · by_cases hr : r ≤ 0
    · rw [processUser_expired cfg env now elapsed loggedIn s user r hen hlog hrem hr]
      exact List.mem_append.mpr (Or.inl hadd)
    · rw [processUser_warn cfg env now elapsed loggedIn s user r hen hlog hrem (by omega)]
      exact List.mem_append.mpr (Or.inl hadd)
  · intro hr
    rw [processUser_expired cfg env now elapsed loggedIn s user r hen hlog hrem hr]
    refine List.mem_append.mpr (Or.inr ?_)
    simp [Scheduler.handleTimeExpired]
  · intro hr
    rw [processUser_warn cfg env now elapsed loggedIn s user r hen hlog hrem hr]
    rw [accrualStep_warningsSent env now elapsed true s user]

/-- Witness for the amended C7: a failing accrual with remaining 3 —
the failed call is recorded and warning evaluation still runs. -/
theorem C7_amended_witness :
    (Effect.addUsage 1 60 false
        ∈ (Scheduler.processUser { WarningIntervals := [5, 1] }
          { now := { nanos := 63871000000000000000, hour := 12, minute := 0 },
            users := Except.ok [{ ID := 1, Username := "a", DailyLimitMins := 120, Enabled := true }],
            sessions := Except.ok [{ UserName := "a" }],
            addUsageResult := fun _ _ => false,
            remainingResult := fun _ => Except.ok 3,
            warnSendOk := fun _ _ => true,
            lockNoticeOk := fun _ => true,
            lockOk := fun _ => true }
          { nanos := 63871000000000000000, hour := 12, minute := 0 } 60000000000
          (fun _ => true) Scheduler.New
          { ID := 1, Username := "a", DailyLimitMins := 120, Enabled := true }).2) ∧
    ((3 : Int) ≤ 0 → Effect.lockSessions "a" true
        ∈ (Scheduler.processUser { WarningIntervals := [5, 1] }
          { now := { nanos := 63871000000000000000, hour := 12, minute := 0 },
            users := Except.ok [{ ID := 1, Username := "a", DailyLimitMins := 120, Enabled := true }],
            sessions := Except.ok [{ UserName := "a" }],
            addUsageResult := fun _ _ => false,
            remainingResult := fun _ => Except.ok 3,
            warnSendOk := fun _ _ => true,
            lockNoticeOk := fun _ => true,
            lockOk := fun _ => true }
          { nanos := 63871000000000000000, hour := 12, minute := 0 } 60000000000
          (fun _ => true) Scheduler.New
          { ID := 1, Username := "a", DailyLimitMins := 120, Enabled := true }).2) ∧
    (0 < (3 : Int) → (Scheduler.processUser { WarningIntervals := [5, 1] }
          { now := { nanos := 63871000000000000000, hour := 12, minute := 0 },
            users := Except.ok [{ ID := 1, Username := "a", DailyLimitMins := 120, Enabled := true }],
            sessions := Except.ok [{ UserName := "a" }],
            addUsageResult := fun _ _ => false,
            remainingResult := fun _ => Except.ok 3,
            warnSendOk := fun _ _ => true,
            lockNoticeOk := fun _ => true,
            lockOk := fun _ => true }
          { nanos := 63871000000000000000, hour := 12, minute := 0 } 60000000000
          (fun _ => true) Scheduler.New
          { ID := 1, Username := "a", DailyLimitMins := 120, Enabled := true }).1.warningsSent
        = (checkWarnings [5, 1] "a" 3 (fun _ => true) Scheduler.New.warningsSent).1) :=
  C7_failed_accrual_continues { WarningIntervals := [5, 1] }
    { now := { nanos := 63871000000000000000, hour := 12, minute := 0 },
      users := Except.ok [{ ID := 1, Username := "a", DailyLimitMins := 120, Enabled := true }],
      sessions := Except.ok [{ UserName := "a" }],
      addUsageResult := fun _ _ => false,
      remainingResult := fun _ => Except.ok 3,
      warnSendOk := fun _ _ => true,
      lockNoticeOk := fun _ => true,
      lockOk := fun _ => true }
    { nanos := 63871000000000000000, hour := 12, minute := 0 } 60000000000
    (fun _ => true) Scheduler.New
    { ID := 1, Username := "a", DailyLimitMins := 120, Enabled := true } 3
    rfl rfl (by omega) rfl rfl

/-- Claim C8: a check cycle whose tick lands in the first minute of
the day (local hour 0, minute 0 — the code tests `Minute() < 1`,
equivalent for a minute component in 0..59) replaces the entire
warning dedup state with an empty map before per-user processing; a
cycle starting at any other time hands the per-user phase the dedup
state unchanged. -/
theorem C8_midnight_reset (cfg : Config) (env : CheckEnv) (s : Scheduler) :
    (env.now.hour = 0 → env.now.minute = 0 →
      Scheduler.check cfg env s
        = Scheduler.checkUsers cfg env (GoTime.sub env.now s.lastCheck)
            { warningsSent := emptyWarn, activeSessions := s.activeSessions,
              lastCheck := env.now }) ∧
    (¬(env.now.hour = 0 ∧ env.now.minute = 0) →
      Scheduler.check cfg env s
        = Scheduler.checkUsers cfg env (GoTime.sub env.now s.lastCheck)
            { warningsSent := s.warningsSent, activeSessions := s.activeSessions,
              lastCheck := env.now }) := by
  constructor
  · intro h0 hm
    unfold Scheduler.check midnightReset
    rw [if_pos ⟨h0, by omega⟩]
  · intro hne
    unfold Scheduler.check midnightReset
    rw [if_neg fun hc => hne ⟨hc.1, Nat.lt_one_iff.mp hc.2⟩]

/-- Witness for C8: a 00:00 tick hands the per-user phase an empty
dedup state; a 12:30 tick hands it the marked state unchanged. -/
theorem C8_witness :
    (Scheduler.check { WarningIntervals := [5, 1] }
        { now := { nanos := 63871000000000000000, hour := 0, minute := 0 },
          users := Except.error "down",
          sessions := Except.ok [],
          addUsageResult := fun _ _ => true,
          remainingResult := fun _ => Except.ok 0,
          warnSendOk := fun _ _ => true,
          lockNoticeOk := fun _ => true,
          lockOk := fun _ => true }
        { Scheduler.New with warningsSent := markWarned emptyWarn "a" 5 }
      = Scheduler.checkUsers { WarningIntervals := [5, 1] }
          { now := { nanos := 63871000000000000000, hour := 0, minute := 0 },
            users := Except.error "down",
            sessions := Except.ok [],
            addUsageResult := fun _ _ => true,
            remainingResult := fun _ => Except.ok 0,
            warnSendOk := fun _ _ => true,
            lockNoticeOk := fun _ => true,
            lockOk := fun _ => true }
          (GoTime.sub { nanos := 63871000000000000000, hour := 0, minute := 0 } GoTime.zero)
          { warningsSent := emptyWarn,
            activeSessions := Scheduler.New.activeSessions,
            lastCheck := { nanos := 63871000000000000000, hour := 0, minute := 0 } }) ∧
    (Scheduler.check { WarningIntervals := [5, 1] }
        { now := { nanos := 63871000000000000000, hour := 12, minute := 30 },
          users := Except.error "down",
          sessions := Except.ok [],
          addUsageResult := fun _ _ => true,
          remainingResult := fun _ => Except.ok 0,
          warnSendOk := fun _ _ => true,
          lockNoticeOk := fun _ => true,
          lockOk := fun _ => true }
        { Scheduler.New with warningsSent := markWarned emptyWarn "a" 5 }
      = Scheduler.checkUsers { WarningIntervals := [5, 1] }
          { now := { nanos := 63871000000000000000, hour := 12, minute := 30 },
            users := Except.error "down",
            sessions := Except.ok [],
            addUsageResult := fun _ _ => true,
            remainingResult := fun _ => Except.ok 0,
            warnSendOk := fun _ _ => true,
            lockNoticeOk := fun _ => true,
            lockOk := fun _ => true }
          (GoTime.sub { nanos := 63871000000000000000, hour := 12, minute := 30 } GoTime.zero)
          { warningsSent := markWarned emptyWarn "a" 5,
            activeSessions := Scheduler.New.activeSessions,
            lastCheck := { nanos := 63871000000000000000, hour := 12, minute := 30 } }) :=
  ⟨(C8_midnight_reset { WarningIntervals := [5, 1] }
      { now := { nanos := 63871000000000000000, hour := 0, minute := 0 },
        users := Except.error "down",
        sessions := Except.ok [],
        addUsageResult := fun _ _ => true,
        remainingResult := fun _ => Except.ok 0,
        warnSendOk := fun _ _ => true,
        lockNoticeOk := fun _ => true,
        lockOk := fun _ => true }
      { Scheduler.New with warningsSent := markWarned emptyWarn "a" 5 }).1 rfl rfl,
   (C8_midnight_reset { WarningIntervals := [5, 1] }
      { now := { nanos := 63871000000000000000, hour := 12, minute := 30 },
        users := Except.error "down",
        sessions := Except.ok [],
        addUsageResult := fun _ _ => true,
        remainingResult := fun _ => Except.ok 0,
        warnSendOk := fun _ _ => true,
        lockNoticeOk := fun _ => true,
        lockOk := fun _ => true }
      { Scheduler.New with warningsSent := markWarned emptyWarn "a" 5 }).2
     (by intro h; exact absurd h.1 (by decide))⟩

/-- Claim C1 (failing input): the very first `check` after `New` runs
with the zero `lastCheck`, so `elapsed = now.Sub(zero)` saturates at
the maximum duration (positive), and `AddUsageTime` IS called for the
logged-in enabled user with `int(elapsed.Seconds())` = 9223372036
seconds (about 292 years) — which also drives the user straight into
the lock path. -/
theorem C1_first_check_credits_saturated_elapsed :
    (Scheduler.check { WarningIntervals := [5, 1] }
        { now := { nanos := 63871000000000000000, hour := 12, minute := 0 },
          users := Except.ok [{ ID := 1, Username := "a", DailyLimitMins := 120, Enabled := true }],
          sessions := Except.ok [{ UserName := "a" }],
          addUsageResult := fun _ _ => true,
          remainingResult := fun _ => Except.ok 0,
          warnSendOk := fun _ _ => true,
          lockNoticeOk := fun _ => true,
          lockOk := fun _ => true }
        Scheduler.New).2
      = [Effect.sessionStarted "a", Effect.addUsage 1 9223372036 true,
         Effect.sendLockNotice "a" true, Effect.sleepSeconds 3,
         Effect.lockSessions "a" true] := rfl

/-- Claim C2 (failing input): user "a" already has the 5-minute
threshold marked; a +15 extension through the API layer succeeds
(remaining becomes 135) yet the scheduler's warning dedup entry is
still set afterwards — `apiExtendTime` has no path to the scheduler
and never invokes `ResetWarnings`, although `ResetWarnings` itself
would clear the entry. -/
theorem C2_extend_does_not_clear_warnings :
    ((systemExtendTime sampleStore
        { Scheduler.New with warningsSent := markWarned emptyWarn "a" 5 }
        "d" (some 1) (some 15)).2.1 = ApiResult.extended 15 135) ∧
    ((systemExtendTime sampleStore
        { Scheduler.New with warningsSent := markWarned emptyWarn "a" 5 }
        "d" (some 1) (some 15)).1.2.warningsSent "a" 5 = true) ∧
    ((Scheduler.ResetWarnings
        { Scheduler.New with warningsSent := markWarned emptyWarn "a" 5 }
        "a").warningsSent "a" 5 = false) :=
  ⟨rfl, rfl, rfl⟩
